import Mathlib

/-!
Shallow embedding of pygod/models/mlpae.py (class MLPAE) and the parts of its
library dependencies that its behaviour factors through.

Tensors are modelled as rational-valued matrices indexed by Fin types.
The pieces of torch / torch_geometric / sklearn that the class calls into
(the MLP module's forward pass, the Adam optimizer update, roc_auc_score,
and the BaseDetector post-processing of decision scores) are supplied as an
explicit environment structure: the claims about mlpae.py hold for every
choice of that environment.  Global RNG state (torch.manual_seed, consumed
by dropout during training-mode forward passes) is threaded explicitly.
Exceptions (NameError for an undefined local, AttributeError on None) are
modelled by Option: a result of none is a raised error.
-/

namespace PyGod

/-- Node-feature matrix with N nodes (dim 0) and d feature dimensions (dim 1). -/
abbrev Mat (N d : ℕ) : Type := Fin N → Fin d → ℚ

/-- Per-node vector (scores or labels). -/
abbrev Vec (N : ℕ) : Type := Fin N → ℚ

/-- torch.nn.functional.mse_loss with reduction none: the elementwise
squared difference of the two tensors. -/
def mseLossNone {N d : ℕ} (a b : Mat N d) : Mat N d :=
  fun i j => (a i j - b i j) ^ 2

/-- Mean of all entries of a matrix (torch mean reduction over a 2-d tensor). -/
def meanAll {N d : ℕ} (m : Mat N d) : ℚ :=
  (∑ i, ∑ j, m i j) / ((N : ℚ) * (d : ℚ))

/-- torch.nn.functional.mse_loss with its default mean reduction: the mean of
the elementwise squared differences over all entries. -/
def mseLoss {N d : ℕ} (a b : Mat N d) : ℚ :=
  meanAll (mseLossNone a b)

/-- torch.mean of a 2-d tensor along dim 1: the vector of row means. -/
def meanDim1 {N d : ℕ} (m : Mat N d) : Vec N :=
  fun i => (∑ j, m i j) / (d : ℚ)

/-- A torch_geometric Data object, restricted to the fields process_graph
reads: node features x and node labels y. -/
structure Data (N d : ℕ) where
  x : Mat N d
  y : Vec N
  deriving DecidableEq

/-- The hyperparameters stored by MLPAE.__init__.  The act field records
whether the activation is not None (the code only ever tests this, via
relu_first = self.act is not None).  The gpu / device selection is omitted:
it only decides where tensors live, not their values. -/
structure HParams where
  hid_dim : ℕ
  num_layers : ℕ
  dropout : ℚ
  weight_decay : ℚ
  act : Bool
  contamination : ℚ
  lr : ℚ
  epoch : ℕ
  verbose : Bool
  deriving DecidableEq

/-- A torch nn.Module as MLPAE uses it: opaque parameters of type P plus the
training-mode flag toggled by .train() / .eval().  A freshly constructed
module is in training mode. -/
structure MLPModel (P : Type) where
  params : P
  training : Bool
  deriving DecidableEq

/-- The library environment the class runs against.  P is the type of MLP
parameters, R the global RNG state, O the Adam optimizer state.
The claims are proved for an arbitrary environment. -/
structure Torch (P R O : Type) (N d : ℕ) where
  /-- torch_geometric.nn.MLP constructor: channel_list, dropout, relu_first
  (batch_norm is always passed False by mlpae.py). -/
  mlpInit : List ℕ → ℚ → Bool → P
  /-- Training-mode forward pass: dropout is active, so it consumes and
  returns global RNG state. -/
  forwardT : P → R → Mat N d → Mat N d × R
  /-- Eval-mode forward pass: dropout is the identity, no randomness used. -/
  forwardE : P → Mat N d → Mat N d
  /-- torch.optim.Adam constructor from parameters, lr and weight_decay. -/
  adamInit : P → ℚ → ℚ → O
  /-- One optimizer.zero_grad(); loss.backward(); optimizer.step() update,
  given the leaves of the loss graph: the reconstruction and the input. -/
  adamStep : O → P → Mat N d → Mat N d → O × P
  /-- sklearn.metrics.roc_auc_score on (labels, scores). -/
  rocAuc : Vec N → Vec N → ℚ
  /-- BaseDetector._process_decision_scores (repository code outside this
  file's source): from decision scores and contamination it derives the
  threshold and the binary outlier labels. -/
  procScores : Vec N → ℚ → ℚ × Vec N

/-- The attributes of an MLPAE instance: the hyperparameters from __init__,
and the fitted state (model, decision_scores_, threshold_, labels_), each
None until fit sets it. -/
structure MLPAE (P : Type) (N : ℕ) where
  hp : HParams
  model : Option (MLPModel P)
  decision_scores_ : Option (Vec N)
  threshold_ : Option ℚ
  labels_ : Option (Vec N)
  deriving DecidableEq

/-- MLPAE.__init__: stores the hyperparameters and sets self.model = None;
no fitted attribute exists yet. -/
def initMLPAE (P : Type) (N : ℕ) (hp : HParams) : MLPAE P N :=
  { hp := hp, model := none, decision_scores_ := none,
    threshold_ := none, labels_ := none }

/-- MLPAE.process_graph: returns the node features and the labels. -/
def process_graph {N d : ℕ} (G : Data N d) : Mat N d × Vec N :=
  (G.x, G.y)

/-- The channel_list built at the start of fit: start from the singleton
list holding the input dimension, append hid_dim once per iteration of
range(num_layers - 1), then append the input dimension again. -/
def channel_list (inputDim hidDim numLayers : ℕ) : List ℕ :=
  ((List.range (numLayers - 1)).foldl (fun acc _ => acc ++ [hidDim])
    [inputDim]) ++ [inputDim]

/-- One line printed by the verbose branch of the training loop:
the epoch index, the loss and the AUC. -/
structure LogEntry where
  epoch : ℕ
  loss : ℚ
  auc : ℚ
  deriving DecidableEq

/-- The mutable state threaded through the training loop of fit: the model,
the optimizer state, the global RNG state, the local variable score (None
before the first iteration assigns it, modelling that the Python local is
undefined until then), the number of optimizer updates performed, and the
log lines printed so far. -/
structure LoopState (P R O : Type) (N : ℕ) where
  model : MLPModel P
  opt : O
  rng : R
  score : Option (Vec N)
  optSteps : ℕ
  log : List LogEntry
  deriving DecidableEq

/-- The loop state just before the first epoch: the MLP is freshly
constructed from the channel list (hence in training mode), the Adam
optimizer is fresh, no score has been assigned, no update has run. -/
def initState {P R O : Type} {N d : ℕ} (T : Torch P R O N d) (hp : HParams)
    (r0 : R) : LoopState P R O N :=
  let p0 := T.mlpInit (channel_list d hp.hid_dim hp.num_layers) hp.dropout hp.act
  { model := { params := p0, training := true },
    opt := T.adamInit p0 hp.lr hp.weight_decay,
    rng := r0, score := none, optSteps := 0, log := [] }

/-- One iteration of the training loop in fit:
self.model.train(); x_ = self.model(x); loss = F.mse_loss(x_, x);
optimizer.zero_grad(); loss.backward(); optimizer.step();
score = torch.mean(F.mse_loss(x_, x, reduction=none), dim=1);
if verbose: print epoch, loss and roc_auc_score(labels, score). -/
def trainIter {P R O : Type} {N d : ℕ} (T : Torch P R O N d) (hp : HParams)
    (x : Mat N d) (labels : Vec N) (s : LoopState P R O N) (ep : ℕ) :
    LoopState P R O N :=
  let md := { s.model with training := true }
  let fr := T.forwardT md.params s.rng x
  let xhat := fr.1
  let loss := mseLoss xhat x
  let op := T.adamStep s.opt md.params xhat x
  let score := meanDim1 (mseLossNone xhat x)
  { model := { params := op.2, training := true },
    opt := op.1,
    rng := fr.2,
    score := some score,
    optSteps := s.optSteps + 1,
    log := s.log ++
      (if hp.verbose then [⟨ep, loss, T.rocAuc labels score⟩] else []) }

/-- The whole training loop: fold the iteration body over range(epoch). -/
def fitLoop {P R O : Type} {N d : ℕ} (T : Torch P R O N d) (hp : HParams)
    (x : Mat N d) (labels : Vec N) (s0 : LoopState P R O N) :
    LoopState P R O N :=
  (List.range hp.epoch).foldl (trainIter T hp x labels) s0

/-- The loop state after the first k iterations, starting from RNG seed r0. -/
def stateAt {P R O : Type} {N d : ℕ} (T : Torch P R O N d) (hp : HParams)
    (x : Mat N d) (labels : Vec N) (r0 : R) (k : ℕ) : LoopState P R O N :=
  (List.range k).foldl (trainIter T hp x labels) (initState T hp r0)

/-- The reconstruction x_ computed by iteration k of the training loop
(0-based): the training-mode forward pass on the model and RNG state
reached after k iterations. -/
def xhatAt {P R O : Type} {N d : ℕ} (T : Torch P R O N d) (hp : HParams)
    (x : Mat N d) (labels : Vec N) (r0 : R) (k : ℕ) : Mat N d :=
  (T.forwardT (stateAt T hp x labels r0 k).model.params
    (stateAt T hp x labels r0 k).rng x).1

/-- The loss computed by iteration k of the training loop. -/
def lossAt {P R O : Type} {N d : ℕ} (T : Torch P R O N d) (hp : HParams)
    (x : Mat N d) (labels : Vec N) (r0 : R) (k : ℕ) : ℚ :=
  mseLoss (xhatAt T hp x labels r0 k) x

/-- The per-node score computed by iteration k of the training loop. -/
def scoreAt {P R O : Type} {N d : ℕ} (T : Torch P R O N d) (hp : HParams)
    (x : Mat N d) (labels : Vec N) (r0 : R) (k : ℕ) : Vec N :=
  meanDim1 (mseLossNone (xhatAt T hp x labels r0 k) x)

/-- The log line iteration k prints when verbose is on. -/
def logEntryAt {P R O : Type} {N d : ℕ} (T : Torch P R O N d) (hp : HParams)
    (x : Mat N d) (labels : Vec N) (r0 : R) (k : ℕ) : LogEntry :=
  ⟨k, lossAt T hp x labels r0 k, T.rocAuc labels (scoreAt T hp x labels r0 k)⟩

/-- MLPAE.fit: process the graph, build the channel list and the MLP, build
the Adam optimizer, run the training loop for epoch iterations, then assign
self.decision_scores_ = score and run _process_decision_scores.  If the loop
body never ran, the local variable score is undefined and the assignment
raises NameError: result none. -/
def fit {P R O : Type} {N d : ℕ} (T : Torch P R O N d) (m : MLPAE P N)
    (r0 : R) (G : Data N d) : Option (MLPAE P N) :=
  let xy := process_graph G
  let sF := fitLoop T m.hp xy.1 xy.2 (initState T m.hp r0)
  match sF.score with
  | none => none
  | some sc =>
    let tl := T.procScores sc m.hp.contamination
    some { m with model := some sF.model, decision_scores_ := some sc,
                  threshold_ := some tl.1, labels_ := some tl.2 }

/-- MLPAE.decision_function: if self.model is None the call raises (the
fit-check guard: self.model.eval() on None fails), otherwise it switches the
model to eval mode, runs an eval-mode forward pass on the new graph's
features and returns the per-node mean over feature dimensions of the
elementwise squared reconstruction error, together with the instance as the
call leaves it. -/
def decision_function {P R O : Type} {N d : ℕ} (T : Torch P R O N d)
    (m : MLPAE P N) (G : Data N d) : Option (MLPAE P N × Vec N) :=
  match m.model with
  | none => none
  | some md =>
    let md' := { md with training := false }
    let x := (process_graph G).1
    let xhat := T.forwardE md'.params x
    some ({ m with model := some md' }, meanDim1 (mseLossNone xhat x))

/-- A full run: construct the instance from the hyperparameters, seed the
global RNG, fit on G, then score G with decision_function. -/
def pipeline {P R O : Type} {N d : ℕ} (T : Torch P R O N d) (hp : HParams)
    (r0 : R) (G : Data N d) : Option (Vec N) :=
  match fit T (initMLPAE P N hp) r0 G with
  | none => none
  | some m => (decision_function T m G).map Prod.snd

/-! Concrete instances used to witness the hypotheses of the theorems. -/

/-- A concrete environment on 1 node and 1 feature dimension: unit
parameters, identity forward passes, trivial optimizer and AUC. -/
def T0 : Torch Unit Unit Unit 1 1 :=
  { mlpInit := fun _ _ _ => (),
    forwardT := fun _ r x => (x, r),
    forwardE := fun _ x => x,
    adamInit := fun _ _ _ => (),
    adamStep := fun o p _ _ => (o, p),
    rocAuc := fun _ _ => 0,
    procScores := fun sc _ => (0, sc) }

/-- A concrete one-node graph with feature value 3 and label 0. -/
def G0 : Data 1 1 :=
  { x := fun _ _ => 3, y := fun _ => 0 }

/-- Concrete hyperparameters: one epoch, verbose off. -/
def hp1 : HParams :=
  { hid_dim := 64, num_layers := 4, dropout := 3/10, weight_decay := 0,
    act := true, contamination := 1/10, lr := 1/200, epoch := 1,
    verbose := false }

/-- Concrete hyperparameters: one epoch, verbose on. -/
def hpV : HParams :=
  { hp1 with verbose := true }

/-- Concrete hyperparameters with epoch = 0. -/
def hpE0 : HParams :=
  { hp1 with epoch := 0 }

/-- The instance obtained by fitting a fresh MLPAE on G0 in environment T0
with hyperparameters hp1. -/
def fitM1 : MLPAE Unit 1 :=
  { hp := hp1, model := some { params := (), training := true },
    decision_scores_ := some (meanDim1 (mseLossNone G0.x G0.x)),
    threshold_ := some 0,
    labels_ := some (meanDim1 (mseLossNone G0.x G0.x)) }

/-! Helper lemmas shared by the claim theorems. -/

/-- Peeling the last iteration off a fold over range. -/
theorem foldl_range_succ {α : Type _} (f : α → ℕ → α) (s : α) (n : ℕ) :
    (List.range (n + 1)).foldl f s = f ((List.range n).foldl f s) n := by
  rw [List.range_succ, List.foldl_append, List.foldl_cons, List.foldl_nil]

/-- Appending a fixed element once per iteration of range n appends
n copies of it. -/
theorem foldl_append_singleton (h : ℕ) (l : List ℕ) (n : ℕ) :
    (List.range n).foldl (fun acc _ => acc ++ [h]) l =
      l ++ List.replicate n h := by
  induction n with
  | zero => simp
  | succ k ih =>
      rw [foldl_range_succ, ih, List.replicate_succ', ← List.append_assoc]

/-- Unfolding one iteration of the training loop. -/
theorem stateAt_succ {P R O : Type} {N d : ℕ} (T : Torch P R O N d)
    (hp : HParams) (x : Mat N d) (labels : Vec N) (r0 : R) (k : ℕ) :
    stateAt T hp x labels r0 (k + 1) =
      trainIter T hp x labels (stateAt T hp x labels r0 k) k := by
  unfold stateAt
  rw [foldl_range_succ]

/-- The optimizer-update counter after k iterations equals k. -/
theorem optSteps_stateAt {P R O : Type} {N d : ℕ} (T : Torch P R O N d)
    (hp : HParams) (x : Mat N d) (labels : Vec N) (r0 : R) (k : ℕ) :
    (stateAt T hp x labels r0 k).optSteps = k := by
  induction k with
  | zero => rfl
  | succ n ih => rw [stateAt_succ]; simpa [trainIter] using ih

/-- After at least one iteration, the loop-local score variable holds the
score computed by the most recent iteration. -/
theorem score_stateAt {P R O : Type} {N d : ℕ} (T : Torch P R O N d)
    (hp : HParams) (x : Mat N d) (labels : Vec N) (r0 : R) (k : ℕ) :
    (stateAt T hp x labels r0 (k + 1)).score =
      some (scoreAt T hp x labels r0 k) := by
  rw [stateAt_succ]
  rfl

/-- With verbose on, the log after k iterations holds exactly one line per
iteration, in order. -/
theorem log_stateAt {P R O : Type} {N d : ℕ} (T : Torch P R O N d)
    (hp : HParams) (x : Mat N d) (labels : Vec N) (r0 : R)
    (hv : hp.verbose = true) (k : ℕ) :
    (stateAt T hp x labels r0 k).log =
      (List.range k).map (logEntryAt T hp x labels r0) := by
  induction k with
  | zero => rfl
  | succ n ih =>
      rw [stateAt_succ, List.range_succ, List.map_append]
      show (stateAt T hp x labels r0 n).log ++ _ = _
      rw [ih, hv]
      rfl

/-! Claim theorems. -/

/-- C2: the channel list passed to the MLP constructor in fit is the input
dimension, followed by num_layers - 1 copies of the hidden dimension,
followed by the input dimension again. -/
theorem channel_list_shape (inputDim hidDim numLayers : ℕ)
    (h : 1 ≤ numLayers) :
    channel_list inputDim hidDim numLayers =
      [inputDim] ++ List.replicate (numLayers - 1) hidDim ++ [inputDim] := by
  unfold channel_list
  rw [foldl_append_singleton, List.append_assoc]

/-- Witness for channel_list_shape at input dimension 5, hidden dimension
64 and 4 layers. -/
theorem channel_list_shape_witness :
    1 ≤ 4 ∧ channel_list 5 64 4 =
      [5] ++ List.replicate (4 - 1) 64 ++ [5] :=
  ⟨by decide, channel_list_shape 5 64 4 (by decide)⟩

/-- C3: on a freshly constructed MLPAE (self.model is None, nothing fitted),
decision_function raises instead of returning scores. -/
theorem decision_function_before_fit_fails {P R O : Type} {N d : ℕ}
    (T : Torch P R O N d) (hp : HParams) (G : Data N d) :
    decision_function T (initMLPAE P N hp) G = none :=
  rfl

/-- C5: fit runs exactly epoch iterations of the training loop, performing
one optimizer update in each, with no early stopping. -/
theorem fit_optimizer_steps {P R O : Type} {N d : ℕ} (T : Torch P R O N d)
    (hp : HParams) (x : Mat N d) (labels : Vec N) (r0 : R) :
    (fitLoop T hp x labels (initState T hp r0)).optSteps = hp.epoch :=
  optSteps_stateAt T hp x labels r0 hp.epoch

/-- C9: with epoch = 0 the loop body of fit never runs, the local variable
score is never assigned, and the closing assignment to decision_scores_
raises; fit fails. -/
theorem fit_epoch_zero_fails {P R O : Type} {N d : ℕ} (T : Torch P R O N d)
    (m0 : MLPAE P N) (r0 : R) (G : Data N d) (h0 : m0.hp.epoch = 0) :
    fit T m0 r0 G = none := by
  unfold fit fitLoop
  rw [h0]
  rfl

/-- Witness for fit_epoch_zero_fails on the concrete environment. -/
theorem fit_epoch_zero_fails_witness :
    (initMLPAE Unit 1 hpE0).hp.epoch = 0 ∧
      fit T0 (initMLPAE Unit 1 hpE0) () G0 = none :=
  ⟨rfl, fit_epoch_zero_fails T0 (initMLPAE Unit 1 hpE0) () G0 rfl⟩

/-- C1: on a fitted model, decision_function returns one score per node,
and the score of node i is the mean over the d feature dimensions of the
squared difference between the eval-mode reconstruction of row i and row i
of the input features. -/
theorem decision_function_scores {P R O : Type} {N d : ℕ}
    (T : Torch P R O N d) (m : MLPAE P N) (G : Data N d) (md : MLPModel P)
    (h : m.model = some md) :
    (decision_function T m G).map Prod.snd =
      some (fun i => (∑ j, (T.forwardE md.params G.x i j - G.x i j) ^ 2)
        / (d : ℚ)) := by
  simp only [decision_function, h, process_graph, Option.map_some]
  rfl

/-- Witness for decision_function_scores on the concrete fitted instance. -/
theorem decision_function_scores_witness :
    fitM1.model = some (MLPModel.mk () true) ∧
      (decision_function T0 fitM1 G0).map Prod.snd =
        some (fun i => (∑ j, (T0.forwardE (MLPModel.mk () true).params G0.x i j
          - G0.x i j) ^ 2) / ((1 : ℕ) : ℚ)) :=
  ⟨rfl, decision_function_scores T0 fitM1 G0 (MLPModel.mk () true) rfl⟩

/-- C4: the full fit-then-score pipeline is a deterministic function of the
RNG seed, the input data and the hyperparameters: two runs on equal seeds,
equal inputs and equal hyperparameters return equal decision scores. -/
theorem pipeline_deterministic {P R O : Type} {N d : ℕ} (T : Torch P R O N d)
    (hpa hpb : HParams) (ra rb : R) (Ga Gb : Data N d)
    (h1 : hpa = hpb) (h2 : ra = rb) (h3 : Ga = Gb) :
    pipeline T hpa ra Ga = pipeline T hpb rb Gb := by
  subst h1
  subst h2
  subst h3
  rfl

/-- Witness for pipeline_deterministic on the concrete run. -/
theorem pipeline_deterministic_witness :
    hp1 = hp1 ∧ () = () ∧ G0 = G0 ∧
      pipeline T0 hp1 () G0 = pipeline T0 hp1 () G0 :=
  ⟨rfl, rfl, rfl, pipeline_deterministic T0 hp1 hp1 () () G0 G0 rfl rfl rfl⟩

/-- C6: in every iteration of the training loop of fit, the loss that is
backpropagated equals the mean over all N * d entries of the squared
elementwise difference between that iteration's reconstruction and the
input features. -/
theorem train_loss_is_mse {P R O : Type} {N d : ℕ} (T : Torch P R O N d)
    (hp : HParams) (x : Mat N d) (labels : Vec N) (r0 : R) (k : ℕ)
    (hk : k < hp.epoch) :
    lossAt T hp x labels r0 k =
      (∑ i, ∑ j, (xhatAt T hp x labels r0 k i j - x i j) ^ 2)
        / ((N : ℚ) * (d : ℚ)) :=
  rfl

/-- Witness for train_loss_is_mse at iteration 0 of the concrete run. -/
theorem train_loss_is_mse_witness :
    0 < hp1.epoch ∧
      lossAt T0 hp1 G0.x G0.y () 0 =
        (∑ i, ∑ j, (xhatAt T0 hp1 G0.x G0.y () 0 i j - G0.x i j) ^ 2)
          / (((1 : ℕ) : ℚ) * ((1 : ℕ) : ℚ)) :=
  ⟨by decide, train_loss_is_mse T0 hp1 G0.x G0.y () 0 (by decide)⟩

/-- C7: when fit returns successfully (epoch at least 1), the stored
decision_scores_ are the per-node scores of the final training iteration:
for each node, the mean over feature dimensions of the squared difference
between the final iteration's reconstruction and the input features. -/
theorem fit_final_epoch_scores {P R O : Type} {N d : ℕ} (T : Torch P R O N d)
    (m0 m : MLPAE P N) (r0 : R) (G : Data N d) (hE : 1 ≤ m0.hp.epoch)
    (hfit : fit T m0 r0 G = some m) :
    m.decision_scores_ =
      some (fun i => (∑ j,
        (xhatAt T m0.hp G.x G.y r0 (m0.hp.epoch - 1) i j - G.x i j) ^ 2)
          / (d : ℚ)) := by
  have hs : (fitLoop T m0.hp G.x G.y (initState T m0.hp r0)).score =
      some (scoreAt T m0.hp G.x G.y r0 (m0.hp.epoch - 1)) := by
    show (stateAt T m0.hp G.x G.y r0 m0.hp.epoch).score = _
    rw [show m0.hp.epoch = (m0.hp.epoch - 1) + 1 from
      (Nat.succ_pred_eq_of_pos hE).symm]
    exact score_stateAt T m0.hp G.x G.y r0 (m0.hp.epoch - 1)
  simp only [fit, process_graph, hs, Option.some.injEq] at hfit
  rw [← hfit]
  rfl

/-- Witness for fit_final_epoch_scores on the concrete run. -/
theorem fit_final_epoch_scores_witness :
    1 ≤ (initMLPAE Unit 1 hp1).hp.epoch ∧
      fit T0 (initMLPAE Unit 1 hp1) () G0 = some fitM1 ∧
      fitM1.decision_scores_ =
        some (fun i => (∑ j,
          (xhatAt T0 (initMLPAE Unit 1 hp1).hp G0.x G0.y ()
            ((initMLPAE Unit 1 hp1).hp.epoch - 1) i j - G0.x i j) ^ 2)
            / ((1 : ℕ) : ℚ)) :=
  ⟨by decide, rfl,
    fit_final_epoch_scores T0 (initMLPAE Unit 1 hp1) fitM1 () G0
      (by decide) rfl⟩

/-- C8 counterexample: with verbose = false (the default) and one full
training epoch, the training loop logs nothing at all, so no AUC is
computed or logged during the epoch. -/
theorem auc_logging_counterexample :
    hp1.verbose = false ∧ 1 ≤ hp1.epoch ∧
      (fitLoop T0 hp1 G0.x G0.y (initState T0 hp1 ())).log = [] := by
  refine ⟨rfl, by decide, rfl⟩

/-- C8 amended: when verbose is true, every iteration of the training loop
of fit appends exactly one log line, carrying that iteration's loss and the
AUC of that iteration's per-node scores against the node labels. -/
theorem fit_verbose_logs_auc {P R O : Type} {N d : ℕ} (T : Torch P R O N d)
    (hp : HParams) (x : Mat N d) (labels : Vec N) (r0 : R)
    (hv : hp.verbose = true) :
    (fitLoop T hp x labels (initState T hp r0)).log =
      (List.range hp.epoch).map (logEntryAt T hp x labels r0) :=
  log_stateAt T hp x labels r0 hv hp.epoch

/-- Witness for fit_verbose_logs_auc on the concrete verbose run. -/
theorem fit_verbose_logs_auc_witness :
    hpV.verbose = true ∧
      (fitLoop T0 hpV G0.x G0.y (initState T0 hpV ())).log =
        (List.range hpV.epoch).map (logEntryAt T0 hpV G0.x G0.y ()) :=
  ⟨rfl, fit_verbose_logs_auc T0 hpV G0.x G0.y () rfl⟩

/-- C10 counterexample: fitM1 is the state fit actually produces on the
concrete run (so its model is in training mode), yet the state returned by
decision_function differs from it: eval() has flipped the model's
training-mode flag. -/
theorem decision_function_state_counterexample :
    fit T0 (initMLPAE Unit 1 hp1) () G0 = some fitM1 ∧
      (decision_function T0 fitM1 G0).map Prod.fst ≠ some fitM1 := by
  refine ⟨rfl, ?_⟩
  intro h
  have h1 : some ({ fitM1 with
      model := some { params := (), training := false } } : MLPAE Unit 1) =
      some fitM1 := h
  have h2 := congrArg (fun o => Option.map MLPAE.model o) h1
  simp [fitM1] at h2

/-- C10 amended: on a fitted model, decision_function leaves every
attribute set by fit unchanged, with one exception: it puts the stored
model into eval mode, flipping its training flag to false.  The model
parameters, decision_scores_, threshold_ and labels_ are untouched, and
the returned scores are the eval-mode reconstruction errors. -/
theorem decision_function_frame {P R O : Type} {N d : ℕ}
    (T : Torch P R O N d) (m : MLPAE P N) (G : Data N d) (md : MLPModel P)
    (h : m.model = some md) :
    decision_function T m G =
      some ({ m with model := some { md with training := false } },
        meanDim1 (mseLossNone (T.forwardE md.params G.x) G.x)) := by
  simp only [decision_function, h, process_graph]

/-- Witness for decision_function_frame on the concrete fitted instance. -/
theorem decision_function_frame_witness :
    fitM1.model = some (MLPModel.mk () true) ∧
      decision_function T0 fitM1 G0 =
        some ({ fitM1 with
            model := some { MLPModel.mk () true with training := false } },
          meanDim1 (mseLossNone (T0.forwardE (MLPModel.mk () true).params G0.x)
            G0.x)) :=
  ⟨rfl, decision_function_frame T0 fitM1 G0 (MLPModel.mk () true) rfl⟩

end PyGod
